import Mathlib

/-!
Verification development for the browser-based Twitter extraction plugin
(`src/twitter_parser/__init__.py`).

The Python plugin drives a headless browser through Playwright.  Its
externally visible control flow is deterministic once the outcomes of the
individual awaited browser operations are fixed, so the embedding models
each awaited operation's outcome (success, or the exception it raises) as
a Boolean, and the in-page script's result as an optional record.  Handles
held on `self` (`self.playwright`, `self.browser`, `self.browser_context`)
are modelled as `Option Unit` fields of a session-state record: the claims
only ever distinguish a set handle from a null one.
-/

namespace TwitterParserModel

/-- The three handles the plugin stores on `self`
(`self.playwright`, `self.browser`, `self.browser_context`),
each either set (`some ()`) or `None`. -/
structure SessionState where
  playwright : Option Unit
  browser : Option Unit
  browser_context : Option Unit
deriving DecidableEq, Fintype

/-- The fully torn-down state set up in `on_load` (all three attributes `None`). -/
def nullState : SessionState := ⟨none, none, none⟩

/-- The fully initialized state (all three handles set). -/
def fullState : SessionState := ⟨some (), some (), some ()⟩

/-- The distinct raise sites of the modelled code.  In Python,
`gotoTimeout` and `fallbackSelectorTimeout` are both raised as
`playwright.async_api.TimeoutError`; they are distinguished here by the
awaited operation that raised them. -/
inductive PyError
  | startError
  | launchError
  | newContextError
  | contextCloseError
  | browserCloseError
  | stopError
  | newPageError
  | gotoTimeout
  | fallbackSelectorTimeout
  | extractionNotFound
  | bridgeDispatchError
deriving DecidableEq

/-- The three awaited teardown operations of `_cleanup_browser`. -/
inductive CleanupStep
  | closeContext
  | closeBrowser
  | stopEngine
deriving DecidableEq

/-- `_cleanup_browser` (lines 69-79).  Each of `ctxCloseOk`, `browserCloseOk`,
`stopOk` is the outcome of the corresponding awaited close/stop call.  The
result is the final session state, the exception that escaped (if any), and
the list of close/stop operations that were actually awaited, in order.
The Python body is three `if` blocks in sequence with no `try`: an awaited
call that raises propagates immediately, so later blocks do not run and the
attribute of the failing step is never reset to `None`. -/
def cleanupBrowser (ctxCloseOk browserCloseOk stopOk : Bool) (s : SessionState) :
    SessionState × Option PyError × List CleanupStep :=
  -- if self.browser_context: await self.browser_context.close(); self.browser_context = None
  match s.browser_context with
  | some _ =>
    if ctxCloseOk then
      cleanupFromBrowser browserCloseOk stopOk { s with browser_context := none }
        [CleanupStep.closeContext]
    else (s, some PyError.contextCloseError, [CleanupStep.closeContext])
  | none => cleanupFromBrowser browserCloseOk stopOk s []
where
  /-- if self.browser: await self.browser.close(); self.browser = None -/
  cleanupFromBrowser (browserCloseOk stopOk : Bool) (s : SessionState)
      (steps : List CleanupStep) : SessionState × Option PyError × List CleanupStep :=
    match s.browser with
    | some _ =>
      if browserCloseOk then
        cleanupFromEngine stopOk { s with browser := none }
          (steps ++ [CleanupStep.closeBrowser])
      else (s, some PyError.browserCloseError, steps ++ [CleanupStep.closeBrowser])
    | none => cleanupFromEngine stopOk s steps
  /-- if self.playwright: await self.playwright.stop(); self.playwright = None -/
  cleanupFromEngine (stopOk : Bool) (s : SessionState) (steps : List CleanupStep) :
      SessionState × Option PyError × List CleanupStep :=
    match s.playwright with
    | some _ =>
      if stopOk then
        ({ s with playwright := none }, none, steps ++ [CleanupStep.stopEngine])
      else (s, some PyError.stopError, steps ++ [CleanupStep.stopEngine])
    | none => (s, none, steps)

/-- `_init_browser` (lines 81-103).  `startOk`, `launchOk`, `contextOk` are the
outcomes of `async_playwright().start()`, `chromium.launch(...)` and
`browser.new_context(...)` respectively (`add_init_script` is assumed not to
raise).  Returns the final state, the escaped exception (if any), and whether
the guarded initialization body was entered at all.  The guard is
`if not self.playwright:` — only the engine handle is consulted; the three
assignments happen one at a time, so a failing step leaves the earlier
assignments in place. -/
def initBrowser (startOk launchOk contextOk : Bool) (s : SessionState) :
    SessionState × Option PyError × Bool :=
  match s.playwright with
  | some _ => (s, none, false)
  | none =>
    if startOk then
      let s1 : SessionState := { s with playwright := some () }
      if launchOk then
        let s2 : SessionState := { s1 with browser := some () }
        if contextOk then
          ({ s2 with browser_context := some () }, none, true)
        else (s2, some PyError.newContextError, true)
      else (s1, some PyError.launchError, true)
    else (s, some PyError.startError, true)

/-- Suspension points of the navigation / wait phase of `_scrape_tweet`
(lines 138-146), recorded in the order they complete. -/
inductive NavStep
  | gotoStep
  | waitPrimary
  | waitFallback
  | settleDelay
deriving DecidableEq

/-- The selector-wait block of `_scrape_tweet` (lines 141-144):
`wait_for_selector('article[data-testid="tweet"]', timeout=30000)` inside a
`try`, with `except PlaywrightTimeout` running
`wait_for_selector('article', timeout=20000)` — the fallback wait itself is
NOT inside any `try`, so its timeout propagates. -/
def waitForContent (primarySelOk fallbackSelOk : Bool) :
    Option PyError × List NavStep :=
  if primarySelOk then (none, [NavStep.waitPrimary])
  else if fallbackSelOk then (none, [NavStep.waitPrimary, NavStep.waitFallback])
  else (some PyError.fallbackSelectorTimeout, [NavStep.waitPrimary, NavStep.waitFallback])

/-- Lines 138-146 of `_scrape_tweet`: `page.goto(url, wait_until='domcontentloaded',
timeout=60000)`, then the selector-wait block, then the fixed settle delay
`page.wait_for_timeout(3000)`.  Returns the escaped exception (if any) and the
completed navigation steps in order. -/
def navigateAndWait (gotoOk primarySelOk fallbackSelOk : Bool) :
    Option PyError × List NavStep :=
  if gotoOk then
    match waitForContent primarySelOk fallbackSelOk with
    | (some e, t) => (some e, NavStep.gotoStep :: t)
    | (none, t) => (none, NavStep.gotoStep :: t ++ [NavStep.settleDelay])
  else (some PyError.gotoTimeout, [NavStep.gotoStep])

/-! ### Timestamp normalization (lines 246-254 of `_scrape_tweet`)

`created_time = 0`; if the raw timestamp string is truthy, the code runs
`datetime.fromisoformat(ts.replace('Z', '+00:00'))` and
`int(dt_obj.timestamp() * 1000)` inside a bare `try`/`except: pass`.
The ISO parser below models `datetime.fromisoformat` on the grammar
`YYYY-MM-DD[sep HH:MM[:SS[.ffffff]][(+|-)HH:MM]]` with `sep` either `T` or a
space, with Python's field validation (year 1-9999, month 1-12, day within
the month, hour ≤ 23, minute/second ≤ 59, offset components ≤ 23:59).
`datetime.timestamp()` on an offset-aware value is the exact number of POSIX
seconds; on a naive value Python applies the platform's local UTC offset,
modelled by the explicit `localOff` parameter (in seconds).  Floats are
modelled by exact integer arithmetic. -/

/-- ASCII decimal digit test (`Char.isDigit` is exactly `'0' ≤ c ≤ '9'`). -/
def isDig (c : Char) : Bool := c.isDigit

/-- `ts.replace('Z', '+00:00')`: Python `str.replace` replaces every
occurrence of the substring `"Z"`. -/
def replaceZ : List Char → List Char
  | [] => []
  | c :: rest =>
    if c = 'Z' then '+' :: '0' :: '0' :: ':' :: '0' :: '0' :: replaceZ rest
    else c :: replaceZ rest

/-- Read exactly `n` decimal digits, returning their value and the remainder. -/
def readNDigits : Nat → Nat → List Char → Option (Nat × List Char)
  | 0, acc, l => some (acc, l)
  | k + 1, acc, c :: rest =>
    if isDig c then readNDigits k (acc * 10 + (c.toNat - 48)) rest else none
  | _ + 1, _, [] => none

/-- Consume one expected character. -/
def expectChar (c : Char) : List Char → Option (List Char)
  | x :: rest => if x = c then some rest else none
  | [] => none

/-- Is `y` a Gregorian leap year (`calendar.isleap`)? -/
def isLeap (y : Nat) : Bool := y % 4 = 0 && (y % 100 ≠ 0 || y % 400 = 0)

/-- Month lengths for a (non-)leap year. -/
def monthDays (leap : Bool) : List Nat :=
  [31, if leap then 29 else 28, 31, 30, 31, 30, 31, 31, 30, 31, 30, 31]

/-- Number of days in month `m` of year `y` (0 for an out-of-range month). -/
def daysInMonth (y m : Nat) : Nat := (monthDays (isLeap y)).getD (m - 1) 0

/-- Days from 0001-01-01 up to the start of year `y` (proleptic Gregorian,
as used by `datetime.date.toordinal`). -/
def daysBeforeYear (y : Nat) : Nat :=
  (y - 1) * 365 + (y - 1) / 4 - (y - 1) / 100 + (y - 1) / 400

/-- Days from the start of year `y` up to the start of its month `m`. -/
def daysBeforeMonth (y m : Nat) : Nat := ((monthDays (isLeap y)).take (m - 1)).sum

/-- `datetime.date(y, m, d).toordinal()`: 0001-01-01 is day 1. -/
def toOrdinal (y m d : Nat) : Nat := daysBeforeYear y + daysBeforeMonth y m + d

/-- The parsed fields of a `datetime` value: date, time, microseconds and
the UTC offset in seconds (`none` for a naive value). -/
structure PyDateTime where
  year : Nat
  month : Nat
  day : Nat
  hour : Nat
  minute : Nat
  second : Nat
  usec : Nat
  offsetSeconds : Option Int
deriving DecidableEq

/-- Parse the optional fractional-seconds part: `('.'|',')` then 1-6 digits
(scaled to microseconds). -/
def parseFraction (l : List Char) : Option (Nat × List Char) :=
  match l with
  | c :: rest =>
    if c = '.' ∨ c = ',' then
      let ds := rest.takeWhile isDig
      if 1 ≤ ds.length ∧ ds.length ≤ 6 then
        match readNDigits ds.length 0 rest with
        | some (v, rest') => some (v * 10 ^ (6 - ds.length), rest')
        | none => none
      else none
    else none
  | [] => none

/-- Parse the optional UTC offset `(+|-)HH:MM`, in seconds. -/
def parseOffset (l : List Char) : Option (Int × List Char) :=
  match l with
  | c :: rest =>
    if c = '+' ∨ c = '-' then
      match readNDigits 2 0 rest with
      | some (oh, r1) =>
        match expectChar ':' r1 with
        | some r2 =>
          match readNDigits 2 0 r2 with
          | some (om, r3) =>
            if oh ≤ 23 ∧ om ≤ 59 then
              let secs : Int := (oh * 3600 + om * 60 : Nat)
              some (if c = '-' then -secs else secs, r3)
            else none
          | none => none
        | none => none
      | none => none
    else none
  | [] => none

/-- Parse the time-of-day part `HH:MM[:SS[.ffffff]]` followed by an optional
offset, which must exhaust the input. -/
def parseTimePart (l : List Char) : Option (Nat × Nat × Nat × Nat × Option Int) :=
  match readNDigits 2 0 l with
  | some (h, r1) =>
    match expectChar ':' r1 with
    | some r2 =>
      match readNDigits 2 0 r2 with
      | some (mi, r3) =>
        let (sec, usec, r4) :=
          match expectChar ':' r3 with
          | some r3' =>
            match readNDigits 2 0 r3' with
            | some (s, r4') =>
              match parseFraction r4' with
              | some (u, r5) => (s, u, r5)
              | none => (s, 0, r4')
            | none => (100, 0, r3')  -- force the range check below to fail
          | none => (0, 0, r3)
        let (off, r6) :=
          match parseOffset r4 with
          | some (o, r5) => ((some o : Option Int), r5)
          | none => (none, r4)
        if h ≤ 23 ∧ mi ≤ 59 ∧ sec ≤ 59 ∧ r6 = [] then some (h, mi, sec, usec, off)
        else none
      | none => none
    | none => none
  | none => none

/-- `datetime.fromisoformat` on the grammar described above. -/
def fromIsoFormat (l : List Char) : Option PyDateTime :=
  match readNDigits 4 0 l with
  | some (y, r1) =>
    match expectChar '-' r1 with
    | some r2 =>
      match readNDigits 2 0 r2 with
      | some (m, r3) =>
        match expectChar '-' r3 with
        | some r4 =>
          match readNDigits 2 0 r4 with
          | some (d, r5) =>
            if 1 ≤ y ∧ 1 ≤ m ∧ m ≤ 12 ∧ 1 ≤ d ∧ d ≤ daysInMonth y m then
              match r5 with
              | [] => some ⟨y, m, d, 0, 0, 0, 0, none⟩
              | c :: rest =>
                if c = 'T' ∨ c = ' ' then
                  match parseTimePart rest with
                  | some (h, mi, s, u, off) => some ⟨y, m, d, h, mi, s, u, off⟩
                  | none => none
                else none
            else none
          | none => none
        | none => none
      | none => none
    | none => none
  | none => none

/-- `dt.timestamp()` as exact POSIX seconds (ignoring microseconds):
ordinal days relative to 1970-01-01 (ordinal 719163) times 86400, plus the
time of day, minus the UTC offset (the local offset for a naive value). -/
def posixSeconds (localOff : Int) (dt : PyDateTime) : Int :=
  ((toOrdinal dt.year dt.month dt.day : Int) - 719163) * 86400
    + (dt.hour * 3600 + dt.minute * 60 + dt.second : Nat)
    - dt.offsetSeconds.getD localOff

/-- Lines 246-254: the `created_time` computation.  `int(dt.timestamp() * 1000)`
truncates toward zero; with microseconds the exact value is
`(posixSeconds * 10^6 + usec) / 1000` rounded toward zero. -/
def createdTime (localOff : Int) (ts : String) : Int :=
  if ts = "" then 0  -- `if tweet_data.get('timestamp'):` — falsy, leave 0
  else
    match fromIsoFormat (replaceZ ts.toList) with
    | none => 0  -- bare `except: pass` leaves created_time = 0
    | some dt => Int.tdiv (posixSeconds localOff dt * 1000000 + (dt.usec : Int)) 1000

/-! ### In-page image URL canonicalization (lines 214-226 of the page script)

```
let imageUrl = img.src.split('?')[0];
if (!imageUrl.match(/\.(jpg|jpeg|png|gif|webp)$/i)) imageUrl += '.jpg';
if (!imageUrl.endsWith(':orig')) imageUrl += ':orig';
```
modelled on `List Char`. -/

/-- JavaScript `s.split('?')[0]`: everything before the first `'?'`. -/
def jsSplitQuery (l : List Char) : List Char := l.takeWhile (fun c => c ≠ '?')

/-- ASCII lowercasing, as performed by the `/i` regex flag on the ASCII
letters of the alternatives. -/
def lowerAscii (c : Char) : Char :=
  if 'A' ≤ c ∧ c ≤ 'Z' then Char.ofNat (c.toNat + 32) else c

/-- `.jpg` as characters. -/
def jpgExt : List Char := ['.', 'j', 'p', 'g']

/-- `:orig` as characters. -/
def origSuffix : List Char := [':', 'o', 'r', 'i', 'g']

/-- The alternatives of the regex `/\.(jpg|jpeg|png|gif|webp)$/i`. -/
def imageExts : List (List Char) :=
  [jpgExt, ['.', 'j', 'p', 'e', 'g'], ['.', 'p', 'n', 'g'],
   ['.', 'g', 'i', 'f'], ['.', 'w', 'e', 'b', 'p']]

/-- `imageUrl.match(/\.(jpg|jpeg|png|gif|webp)$/i)` is truthy: the URL ends,
case-insensitively, with one of the recognized extensions. -/
def hasImageExt (l : List Char) : Bool :=
  imageExts.any (fun e => e.isSuffixOf (l.map lowerAscii))

/-- The whole per-image transformation of the page script. -/
def canonicalizeImageUrl (src : List Char) : List Char :=
  let u := jsSplitQuery src
  let u := if hasImageExt u then u else u ++ jpgExt
  if origSuffix.isSuffixOf u then u else u ++ origSuffix

/-- `canonicalizeImageUrl` on `String`s. -/
def canonicalizeImageUrlS (src : String) : String :=
  String.mk (canonicalizeImageUrl src.toList)

/-! ### Tweet id extraction (lines 242-244 of `_scrape_tweet`)

```
tweet_id_match = re.search(r'/status/(\d+)', url)
tweet_id = tweet_id_match.group(1) if tweet_id_match else ''
```
`re.search` tries every start position from the left; at each position the
literal `/status/` must match and `\d+` must capture a maximal nonempty digit
run (digits modelled as ASCII `0-9`). -/

/-- `/status/` as characters. -/
def statusSeg : List Char := ['/', 's', 't', 'a', 't', 'u', 's', '/']

/-- Try the pattern `/status/(\d+)` anchored at the head of `l`: the eight
literal characters, then a maximal nonempty digit run. -/
def matchStatusAt (l : List Char) : Option (List Char) :=
  match l with
  | '/' :: 's' :: 't' :: 'a' :: 't' :: 'u' :: 's' :: '/' :: rest =>
    let ds := rest.takeWhile isDig
    if ds.isEmpty then none else some ds
  | _ => none

/-- Scan left to right for the first position where `/status/(\d+)` matches. -/
def findStatusId : List Char → Option (List Char)
  | [] => none
  | c :: rest =>
    match matchStatusAt (c :: rest) with
    | some ds => some ds
    | none => findStatusId rest

/-- Lines 242-244: the extracted tweet id, `''` when the pattern matches
nowhere. -/
def extractTweetId (url : String) : String :=
  match findStatusId url.toList with
  | some ds => String.mk ds
  | none => ""

/-! ### The capability check `can_parse` (lines 105-110)

```
return bool(re.match(r'https?://(www\.)?(twitter\.com|x\.com)/.+/status/\d+', url))
```
`re.match` anchors at the start of the string only.  The pattern is decomposed
literally: scheme, optional `www.`, one of the two hosts, a `/`, then `.+`
(one or more characters, none of which may be a newline, since `.` does not
match `\n`), then `/status/` and at least one digit.  The optional `(www\.)?`
group is modelled by an unconditional strip: neither host alternative starts
with `w`, so whenever the input starts with `www.` the group must consume it,
and when it does not the group matches the empty string. -/

/-- Literal prefix test, recursing on the pattern first (so that
`startsWith [] l` is `true` without inspecting `l`). -/
def startsWith : List Char → List Char → Bool
  | [], _ => true
  | p :: ps, l =>
    match l with
    | [] => false
    | c :: cs => p == c && startsWith ps cs

/-- If `pre` is a literal prefix of `l`, return the remainder. -/
def dropPre (pre l : List Char) : Option (List Char) :=
  match startsWith pre l with
  | true => some (l.drop pre.length)
  | false => none

/-- `http://` as characters. -/
def httpPre : List Char := ['h', 't', 't', 'p', ':', '/', '/']

/-- `https://` as characters. -/
def httpsPre : List Char := ['h', 't', 't', 'p', 's', ':', '/', '/']

/-- `www.` as characters. -/
def wwwDot : List Char := ['w', 'w', 'w', '.']

/-- `twitter.com` as characters. -/
def twitterHost : List Char := ['t', 'w', 'i', 't', 't', 'e', 'r', '.', 'c', 'o', 'm']

/-- `x.com` as characters. -/
def xHost : List Char := ['x', '.', 'c', 'o', 'm']

/-- Strip `https?://` (the two alternatives are mutually exclusive). -/
def schemeSplit (l : List Char) : Option (List Char) :=
  match dropPre httpsPre l with
  | some r => some r
  | none => dropPre httpPre l

/-- Strip the optional `www.`. -/
def wwwSplit (l : List Char) : List Char :=
  match dropPre wwwDot l with
  | some r => r
  | none => l

/-- Strip `twitter.com` or `x.com` (mutually exclusive alternatives). -/
def hostSplit (l : List Char) : Option (List Char) :=
  match dropPre twitterHost l with
  | some r => some r
  | none => dropPre xHost l

/-- The Unicode general-category-Nd ranges (inclusive code-point bounds),
from the Unicode 14.0 character database used by CPython 3.11.  Python's
`\d` in a `str` pattern (no `re.ASCII` flag, as in `can_parse`) matches
exactly the characters of category Nd. -/
def ndRanges : List (Nat × Nat) :=
  [(48, 57), (1632, 1641), (1776, 1785), (1984, 1993), (2406, 2415),
   (2534, 2543), (2662, 2671), (2790, 2799), (2918, 2927), (3046, 3055),
   (3174, 3183), (3302, 3311), (3430, 3439), (3558, 3567), (3664, 3673),
   (3792, 3801), (3872, 3881), (4160, 4169), (4240, 4249), (6112, 6121),
   (6160, 6169), (6470, 6479), (6608, 6617), (6784, 6793), (6800, 6809),
   (6992, 7001), (7088, 7097), (7232, 7241), (7248, 7257), (42528, 42537),
   (43216, 43225), (43264, 43273), (43472, 43481), (43504, 43513),
   (43600, 43609), (44016, 44025), (65296, 65305), (66720, 66729),
   (68912, 68921), (69734, 69743), (69872, 69881), (69942, 69951),
   (70096, 70105), (70384, 70393), (70736, 70745), (70864, 70873),
   (71248, 71257), (71360, 71369), (71472, 71481), (71904, 71913),
   (72016, 72025), (72784, 72793), (73040, 73049), (73120, 73129),
   (92768, 92777), (92864, 92873), (93008, 93017), (120782, 120831),
   (123200, 123209), (123632, 123641), (125264, 125273), (130032, 130041)]

/-- Python's `\d` on a `str` pattern: any Unicode decimal digit
(category Nd), not only ASCII `0-9`. -/
def isUniDigit (c : Char) : Bool :=
  ndRanges.any (fun p => p.1 ≤ c.toNat && c.toNat ≤ p.2)

/-- `/status/` immediately here, followed by at least one `\d` digit. -/
def statusDigit (l : List Char) : Bool :=
  match dropPre statusSeg l with
  | some (c :: _) => isUniDigit c
  | _ => false

/-- `.+/status/\d`: at least one non-newline character, then `/status/` and a
digit.  The head character is consumed by `.+`; a newline can never be part
of `.+`, and every match must start by consuming the head, so a newline head
refutes all continuations. -/
def dotPlusStatus : List Char → Bool
  | [] => false
  | c :: rest =>
    if c = '\n' then false
    else statusDigit rest || dotPlusStatus rest

/-- `Plugin.can_parse` (lines 105-110). -/
def canParse (url : String) : Bool :=
  match schemeSplit url.toList with
  | none => false
  | some r1 =>
    match hostSplit (wwwSplit r1) with
    | none => false
    | some [] => false
    | some (c :: path) => c == '/' && dotPlusStatus path

/-- `/status/` followed by a digit somewhere in `l`. -/
def containsStatusDigit : List Char → Bool
  | [] => false
  | c :: rest => statusDigit (c :: rest) || containsStatusDigit rest

/-- The post-URL shape exactly as the claim words it: a `twitter.com` or
`x.com` URL (scheme, optional `www.`) whose path contains a `/status/`
segment followed by digits.  This is the spec-side shape used to compare
against `canParse`; it intentionally follows the claim's words, not the code. -/
def claimShape (url : String) : Bool :=
  match schemeSplit url.toList with
  | none => false
  | some r1 =>
    match hostSplit (wwwSplit r1) with
    | none => false
    | some [] => false
    | some (c :: p) => c == '/' && containsStatusDigit (c :: p)

/-! ### The extraction pipeline `_scrape_tweet` / `parse` (lines 112-282)

The page script (`page.evaluate`, lines 149-237) either returns `null` (no
`article` container found) or an object that always carries the keys `text`
(string, default `''`), `author` (object with optional sub-keys), `timestamp`
(string, default `''`), `images` and `videos` (arrays of `{url: ...}`
objects).  `RawTweet` models that object; media lists are modelled by their
URL strings. -/

/-- The `data.author` object of the page script; each sub-key is only present
when the corresponding DOM query succeeded. -/
structure RawAuthor where
  name : Option String
  userName : Option String
  url : Option String
  uid : Option String
  avatar : Option String
deriving DecidableEq

/-- The page script's `data` object. -/
structure RawTweet where
  text : String
  author : RawAuthor
  timestamp : String
  images : List String
  videos : List String
deriving DecidableEq

/-- The dictionary returned by `_scrape_tweet` (lines 257-279), the keyword
arguments of `URLParserResult`.  The fixed platform descriptor is kept as its
four string fields. -/
structure URLParserResult where
  pid : String
  url : String
  images : List String
  videos : List String
  content : String
  authorUid : String
  authorName : String
  authorUserName : String
  authorAvatar : String
  authorUrl : String
  createdTime : Int
  parserTag : String
  state : String
  platformName : String
  platformCode : String
  platformUrl : String
  platformIconUrl : String
deriving DecidableEq

/-- Lines 242-279: build the returned dictionary from the raw extraction.
Missing author sub-keys default to `''` via `.get(..., '')`. -/
def buildResult (localOff : Int) (url : String) (raw : RawTweet) : URLParserResult :=
  { pid := extractTweetId url
    url := url
    images := raw.images
    videos := raw.videos
    content := raw.text
    authorUid := raw.author.uid.getD ""
    authorName := raw.author.name.getD ""
    authorUserName := raw.author.userName.getD ""
    authorAvatar := raw.author.avatar.getD ""
    authorUrl := raw.author.url.getD ""
    createdTime := createdTime localOff raw.timestamp
    parserTag := "twitter_parser"
    state := "success"
    platformName := "X"
    platformCode := "x"
    platformUrl := "https://x.com/"
    platformIconUrl := "https://is1-ssl.mzstatic.com/image/thumb/Purple211/v4/d8/88/a7/d888a76a-2b0c-d68a-ab65-83eb09740f43/ProductionAppIcon-0-0-1x_U007emarketing-0-7-0-0-0-85-220.png/512x512bb.jpg" }

/-- Outcomes of every awaited external operation of one `parse` call:
the three initialization steps, `browser_context.new_page()`, navigation and
the two selector waits, the page script's result, and whether `_run_async`
managed to dispatch the coroutine at all. -/
structure ScrapeEnv where
  bridgeOk : Bool
  startOk : Bool
  launchOk : Bool
  contextOk : Bool
  newPageOk : Bool
  gotoOk : Bool
  primarySelOk : Bool
  fallbackSelOk : Bool
  raw : Option RawTweet
deriving DecidableEq

/-- `_scrape_tweet` (lines 128-282): initialize the browser, open a page
(`self.browser_context.new_page()` raises `AttributeError` when the context
handle is `None`, modelled by the same `newPageError`), navigate and wait,
run the page script, raise when it returned `null`
(`if not tweet_data: raise Exception(...)`, line 239-240), and otherwise
build the result dictionary.  Returns the session state after the call
together with the outcome.  The `finally: await page.close()` has no effect
on the session state or the outcome and is not modelled further. -/
def scrapeTweet (env : ScrapeEnv) (localOff : Int) (s : SessionState) (url : String) :
    SessionState × Except PyError URLParserResult :=
  let (s1, initErr, _) := initBrowser env.startOk env.launchOk env.contextOk s
  match initErr with
  | some e => (s1, Except.error e)
  | none =>
    match s1.browser_context with
    | none => (s1, Except.error PyError.newPageError)  -- AttributeError on None
    | some _ =>
      if env.newPageOk then
        match navigateAndWait env.gotoOk env.primarySelOk env.fallbackSelOk with
        | (some e, _) => (s1, Except.error e)
        | (none, _) =>
          match env.raw with
          | none => (s1, Except.error PyError.extractionNotFound)
          | some raw => (s1, Except.ok (buildResult localOff url raw))
      else (s1, Except.error PyError.newPageError)

/-- `Plugin.parse` (lines 112-126): run `_scrape_tweet` through the
sync/async bridge inside `try`/`except Exception`; any raised error — bridge
dispatch failure included — is logged and turned into `None`. -/
def parse (env : ScrapeEnv) (localOff : Int) (s : SessionState) (url : String) :
    SessionState × Option URLParserResult :=
  if env.bridgeOk then
    match scrapeTweet env localOff s url with
    | (s1, Except.ok r) => (s1, some r)
    | (s1, Except.error _) => (s1, none)
  else (s, none)

/-- A concrete raw extraction used by witnesses and counterexamples. -/
def rawSample : RawTweet :=
  { text := "hello world"
    author := { name := some "Alice", userName := some "alice",
                url := some "https://x.com/alice", uid := some "42",
                avatar := some "https://pbs.twimg.com/profile_images/42/a.jpg" }
    timestamp := "2024-01-01T00:00:00.000Z"
    images := ["https://pbs.twimg.com/media/ABC.jpg:orig"]
    videos := [] }

/-- An all-success environment delivering `rawSample`. -/
def envOk : ScrapeEnv :=
  { bridgeOk := true, startOk := true, launchOk := true, contextOk := true,
    newPageOk := true, gotoOk := true, primarySelOk := true,
    fallbackSelOk := true, raw := some rawSample }

/-! ## Claims -/

/-- C1, counterexample.  The claim says the call fails with a timeout error
only when the top-level navigation times out, and that readiness-selector
timeouts never fail the call.  But when the primary selector wait times out
and the fallback selector wait also times out, the fallback's
`PlaywrightTimeout` propagates (it is not inside any `try`): the call fails
even though `page.goto` succeeded, and the settle delay is never reached. -/
theorem readiness_timeout_fails_call :
    (navigateAndWait true false false).1 = some PyError.fallbackSelectorTimeout ∧
    NavStep.settleDelay ∉ (navigateAndWait true false false).2 ∧
    (scrapeTweet { envOk with primarySelOk := false, fallbackSelOk := false } 0 nullState
        "https://x.com/a/status/1").2 = Except.error PyError.fallbackSelectorTimeout ∧
    (parse { envOk with primarySelOk := false, fallbackSelOk := false } 0 nullState
        "https://x.com/a/status/1").2 = none :=
  ⟨rfl, by decide, rfl, rfl⟩

/-- C1, amended.  The navigation phase fails with the navigation-timeout
error exactly when `page.goto` times out; if only the primary readiness
selector times out but the fallback selector succeeds, the call does not
fail and the fixed settle delay is still applied; if both readiness
selectors time out, the call fails with the fallback selector's timeout
error and the settle delay is not applied. -/
theorem navigation_wait_characterization :
    ∀ g p f : Bool,
      ((navigateAndWait g p f).1 = none ↔ g = true ∧ (p = true ∨ f = true)) ∧
      (g = false → navigateAndWait g p f = (some PyError.gotoTimeout, [NavStep.gotoStep])) ∧
      ((navigateAndWait g p f).1 = none →
        NavStep.settleDelay ∈ (navigateAndWait g p f).2) ∧
      (g = true → p = false → f = false →
        (navigateAndWait g p f).1 = some PyError.fallbackSelectorTimeout ∧
        NavStep.settleDelay ∉ (navigateAndWait g p f).2) := by
  intro g p f
  refine ⟨?_, ?_, ?_, ?_⟩ <;> revert g p f <;> decide

/-- Witness for C1's amended theorem at a concrete input: navigation
succeeded, the primary selector timed out, the fallback succeeded — the
phase does not fail, and the settle delay ran. -/
theorem navigation_wait_characterization_witness :
    (navigateAndWait true false true).1 = none ∧
    NavStep.settleDelay ∈ (navigateAndWait true false true).2 :=
  ⟨rfl, (navigation_wait_characterization true false true).2.2.1 rfl⟩

/-- C2, counterexample.  The claim says teardown swallows each individual
step's error so all three steps are attempted and all handles end up null.
But `_cleanup_browser` has no `try` around any step: when
`browser_context.close()` raises, the error propagates, the browser close
and engine stop are never attempted, and all three handles are left set. -/
theorem teardown_error_not_swallowed :
    (cleanupBrowser false true true fullState).2.1 = some PyError.contextCloseError ∧
    (cleanupBrowser false true true fullState).1 = fullState ∧
    CleanupStep.closeBrowser ∉ (cleanupBrowser false true true fullState).2.2 ∧
    CleanupStep.stopEngine ∉ (cleanupBrowser false true true fullState).2.2 := by decide

/-- C2, amended.  Teardown attempts the close steps in the fixed order
context, browser, engine (the attempted steps are always an order-respecting
sublist of that sequence, and from a live session with no step failing,
exactly that sequence), nulling each handle right after its step succeeds;
when no step raises, all three handles end up null.  But an individual
step's error is not swallowed: it propagates, the remaining steps are not
attempted, and the failing step's handle (and any later one) remains set. -/
theorem teardown_characterization :
    (cleanupBrowser true true true fullState =
      (nullState, none,
        [CleanupStep.closeContext, CleanupStep.closeBrowser, CleanupStep.stopEngine])) ∧
    ∀ (c1 c2 c3 : Bool) (s : SessionState),
      ((cleanupBrowser c1 c2 c3 s).2.2.Sublist
        [CleanupStep.closeContext, CleanupStep.closeBrowser, CleanupStep.stopEngine]) ∧
      ((cleanupBrowser c1 c2 c3 s).2.1 = none → (cleanupBrowser c1 c2 c3 s).1 = nullState) ∧
      ((cleanupBrowser c1 c2 c3 s).2.1 = some PyError.contextCloseError →
        (cleanupBrowser c1 c2 c3 s).1 = s ∧
        (cleanupBrowser c1 c2 c3 s).2.2 = [CleanupStep.closeContext]) ∧
      ((cleanupBrowser c1 c2 c3 s).2.1 = some PyError.browserCloseError →
        (cleanupBrowser c1 c2 c3 s).1.browser = some () ∧
        CleanupStep.stopEngine ∉ (cleanupBrowser c1 c2 c3 s).2.2) ∧
      ((cleanupBrowser c1 c2 c3 s).2.1 = some PyError.stopError →
        (cleanupBrowser c1 c2 c3 s).1.playwright = some ()) := by decide

/-- Witness for C2's amended theorem: from a live session with every step
succeeding, teardown reaches the fully-null state. -/
theorem teardown_characterization_witness :
    (cleanupBrowser true true true fullState).2.1 = none ∧
    (cleanupBrowser true true true fullState).1 = nullState :=
  ⟨by decide, (teardown_characterization.2 true true true fullState).2.1 (by decide)⟩

/-- C3, counterexample.  The claim says a failed launch leaves the session
fully torn down and retryable.  But when `chromium.launch` raises, the
engine handle assigned just before stays set while the other two are null —
a state that is neither fully initialized nor fully torn down — and because
`_init_browser` only checks `if not self.playwright:`, the next
initialization call performs no work at all. -/
theorem failed_launch_leaves_partial_state :
    (initBrowser true false true nullState).2.1 = some PyError.launchError ∧
    (initBrowser true false true nullState).1 ≠ nullState ∧
    (initBrowser true false true nullState).1 ≠ fullState ∧
    initBrowser true true true (initBrowser true false true nullState).1 =
      ((initBrowser true false true nullState).1, none, false) := by decide

/-- C3, amended.  After an initialization in which every step succeeds the
session is fully initialized; if the engine start itself fails the session
stays fully torn down (and a later call retries).  But if browser launch or
context creation fails, the session is left partially initialized — the
engine handle (and, for a context failure, the browser handle) remains set —
and every subsequent initialization call performs no work, so
initialization is not retryable from that state. -/
theorem init_characterization :
    ∀ a b c : Bool,
      (a = true → b = true → c = true →
        initBrowser a b c nullState = (fullState, none, true)) ∧
      (a = false →
        initBrowser a b c nullState = (nullState, some PyError.startError, true)) ∧
      (a = true → b = false →
        initBrowser a b c nullState =
          (⟨some (), none, none⟩, some PyError.launchError, true) ∧
        ∀ a' b' c' : Bool,
          initBrowser a' b' c' (⟨some (), none, none⟩ : SessionState) =
            (⟨some (), none, none⟩, none, false)) ∧
      (a = true → b = true → c = false →
        initBrowser a b c nullState =
          (⟨some (), some (), none⟩, some PyError.newContextError, true) ∧
        ∀ a' b' c' : Bool,
          initBrowser a' b' c' (⟨some (), some (), none⟩ : SessionState) =
            (⟨some (), some (), none⟩, none, false)) := by
  intro a b c
  refine ⟨?_, ?_, ?_, ?_⟩ <;> revert a b c <;> decide

/-- Witness for C3's amended theorem: the all-success case reaches the fully
initialized state. -/
theorem init_characterization_witness :
    initBrowser true true true nullState = (fullState, none, true) :=
  (init_characterization true true true).1 rfl rfl rfl

/-- C8, confirmed.  From the torn-down state, a first `_init_browser` call
always enters the guarded initialization body; when that first call raises
nothing, a second call — whatever its own environment — performs no work and
leaves the state unchanged.  More generally, `_init_browser` on any state
whose engine handle is set performs no work at all (the guard is
`if not self.playwright:`).  Likewise, when a first `_cleanup_browser` call
from any state raises nothing, the state is fully null afterwards and a
second call awaits no close/stop operation and leaves the state unchanged. -/
theorem session_idempotence :
    ∀ (a b c a' b' c' d1 d2 d3 d1' d2' d3' : Bool) (s : SessionState),
      ((initBrowser a b c nullState).2.2 = true) ∧
      ((initBrowser a b c nullState).2.1 = none →
        initBrowser a' b' c' (initBrowser a b c nullState).1 =
          ((initBrowser a b c nullState).1, none, false)) ∧
      (s.playwright = some () → initBrowser a' b' c' s = (s, none, false)) ∧
      ((cleanupBrowser d1 d2 d3 s).2.1 = none →
        cleanupBrowser d1' d2' d3' (cleanupBrowser d1 d2 d3 s).1 =
          ((cleanupBrowser d1 d2 d3 s).1, none, [])) := by
  intro a b c a' b' c' d1 d2 d3 d1' d2' d3' s
  refine ⟨?_, ?_, ?_, ?_⟩
  · revert a b c; decide
  · revert a b c a' b' c'; decide
  · revert a' b' c' s; decide
  · revert d1 d2 d3 d1' d2' d3' s; decide

/-- Witness for C8 at the all-success environment and the live session
state: the second init call does no work, and the second teardown call is a
no-op. -/
theorem session_idempotence_witness :
    ((initBrowser true true true nullState).2.1 = none ∧
      initBrowser true true true (initBrowser true true true nullState).1 =
        ((initBrowser true true true nullState).1, none, false)) ∧
    (fullState.playwright = some () ∧
      initBrowser true true true fullState = (fullState, none, false)) ∧
    ((cleanupBrowser true true true fullState).2.1 = none ∧
      cleanupBrowser true true true (cleanupBrowser true true true fullState).1 =
        ((cleanupBrowser true true true fullState).1, none, [])) :=
  ⟨⟨by decide,
    (session_idempotence true true true true true true true true true true true true
        fullState).2.1 (by decide)⟩,
   ⟨by decide,
    (session_idempotence true true true true true true true true true true true true
        fullState).2.2.1 (by decide)⟩,
   ⟨by decide,
    (session_idempotence true true true true true true true true true true true true
        fullState).2.2.2 (by decide)⟩⟩

/-- `re.search(r'/status/(\d+)', url)` cannot match at a position that does
not start with the literal `/status/`. -/
theorem matchStatusAt_eq_none {l : List Char} (h : ¬ statusSeg <+: l) :
    matchStatusAt l = none := by
  unfold matchStatusAt
  split
  · next rest => exact absurd ⟨rest, rfl⟩ h
  · rfl

/-- When `/status/` occurs nowhere in `l`, the scan finds no match. -/
theorem findStatusId_eq_none {l : List Char} (h : ¬ statusSeg <:+: l) :
    findStatusId l = none := by
  induction l with
  | nil => rfl
  | cons c rest ih =>
    rw [List.infix_cons_iff, not_or] at h
    rw [findStatusId, matchStatusAt_eq_none h.1, ih h.2]

/-- C4, confirmed.  Timestamp normalization parses the raw string as an
ISO-8601 instant with a trailing `Z` rewritten to the UTC offset `+00:00`
and converts it to epoch milliseconds — `"2024-01-01T00:00:00Z"` gives
`1704067200000` whatever the platform's local offset — and whenever the
parse fails the substituted value is `0` while the extraction call itself
still succeeds and returns a record. -/
theorem timestamp_normalization :
    (∀ off : Int, createdTime off "2024-01-01T00:00:00Z" = 1704067200000) ∧
    (∀ off : Int, createdTime off "not-a-timestamp" = 0) ∧
    (∀ (off : Int) (ts : String), fromIsoFormat (replaceZ ts.toList) = none →
      createdTime off ts = 0) ∧
    (scrapeTweet { envOk with raw := some { rawSample with timestamp := "not-a-timestamp" } }
        0 nullState "https://x.com/a/status/1").2 =
      Except.ok (buildResult 0 "https://x.com/a/status/1"
        { rawSample with timestamp := "not-a-timestamp" }) ∧
    (buildResult 0 "https://x.com/a/status/1"
        { rawSample with timestamp := "not-a-timestamp" }).createdTime = 0 := by
  refine ⟨fun off => rfl, fun off => rfl, fun off ts h => ?_, rfl, rfl⟩
  by_cases hts : ts = "" <;>
    simp [createdTime, hts, show fromIsoFormat (replaceZ ts.data) = none from h]

/-- Witness for C4 at a concrete unparsable timestamp. -/
theorem timestamp_normalization_witness :
    fromIsoFormat (replaceZ (String.toList "soon(tm)")) = none ∧
    createdTime 5 "soon(tm)" = 0 :=
  ⟨by decide, timestamp_normalization.2.2.1 5 "soon(tm)" (by decide)⟩

/-- C6, confirmed.  When the page script returns `null` (no matching
container), `_scrape_tweet` raises — modelled as `extractionNotFound` — and
`parse` returns no record; and on every failing outcome whatsoever, `parse`
returns `none`, never a partial record. -/
theorem extraction_not_found_all_or_nothing :
    ∀ (env : ScrapeEnv) (off : Int) (s : SessionState) (url : String),
      (env.startOk = true → env.launchOk = true → env.contextOk = true →
       env.newPageOk = true → env.gotoOk = true →
       (env.primarySelOk = true ∨ env.fallbackSelOk = true) →
       s.playwright = none → env.raw = none →
        (scrapeTweet env off s url).2 = Except.error PyError.extractionNotFound ∧
        (parse env off s url).2 = none) ∧
      (∀ e, (scrapeTweet env off s url).2 = Except.error e →
        (parse env off s url).2 = none) := by
  intro env off s url
  obtain ⟨b, a1, a2, a3, np, g, p, f, r⟩ := env
  obtain ⟨pw, br, bc⟩ := s
  constructor
  · rintro rfl rfl rfl rfl rfl hsel rfl rfl
    rcases hsel with rfl | rfl
    · cases b <;> cases f <;>
        simp [scrapeTweet, parse, initBrowser, navigateAndWait, waitForContent]
    · cases b <;> cases p <;>
        simp [scrapeTweet, parse, initBrowser, navigateAndWait, waitForContent]
  · intro e he
    cases b with
    | false => rfl
    | true =>
      rcases hsc : scrapeTweet ⟨true, a1, a2, a3, np, g, p, f, r⟩ off ⟨pw, br, bc⟩ url
        with ⟨s2, res⟩
      rw [hsc] at he
      simp at he
      simp [parse, hsc, he]

/-- Witness for C6: a fully successful navigation over a page with no
matching container fails with the extraction error and yields no record. -/
theorem extraction_not_found_all_or_nothing_witness :
    (scrapeTweet { envOk with raw := none } 0 nullState "https://x.com/a/status/1").2 =
      Except.error PyError.extractionNotFound ∧
    (parse { envOk with raw := none } 0 nullState "https://x.com/a/status/1").2 = none :=
  (extraction_not_found_all_or_nothing { envOk with raw := none } 0 nullState
      "https://x.com/a/status/1").1 rfl rfl rfl rfl rfl (Or.inl rfl) rfl rfl

/-- C7, confirmed.  Identifier resolution takes the maximal digit run after
the first `/status/` occurrence that is followed by a digit — appending a
digit string `d` to `.../status/` extracts exactly `d` — and a URL with no
`/status/` substring at all resolves to the empty string (the call is not
failed on that account: the id is just a field of the returned record). -/
theorem tweet_id_extraction :
    (∀ url : String, ¬ statusSeg <:+: url.toList → extractTweetId url = "") ∧
    (∀ d : List Char, d ≠ [] → d.all isDig = true →
      extractTweetId (String.mk (String.toList "https://x.com/user/status/" ++ d)) =
        String.mk d) ∧
    extractTweetId "https://x.com/user/status/123456789" = "123456789" ∧
    extractTweetId "https://x.com/user/profile" = "" := by
  refine ⟨fun url h => ?_, fun d hne hdig => ?_, by decide, by decide⟩
  · rw [extractTweetId, findStatusId_eq_none h]
  · obtain ⟨c, d', rfl⟩ := List.exists_cons_of_ne_nil hne
    rw [List.all_cons, Bool.and_eq_true] at hdig
    have htw : List.takeWhile isDig d' = d' :=
      List.takeWhile_eq_self_iff.mpr (fun x hx => (List.all_eq_true.mp hdig.2) x hx)
    have hfind : findStatusId (String.toList "https://x.com/user/status/" ++ c :: d') =
        some (c :: d') := by
      have hstep : findStatusId (String.toList "https://x.com/user/status/" ++ c :: d') =
          findStatusId (statusSeg ++ c :: d') := rfl
      rw [hstep, statusSeg]
      show (match matchStatusAt ('/' :: 's' :: 't' :: 'a' :: 't' :: 'u' :: 's' :: '/' ::
          c :: d') with
        | some ds => some ds
        | none => findStatusId ('s' :: 't' :: 'a' :: 't' :: 'u' :: 's' :: '/' :: c :: d')) =
        some (c :: d')
      rw [matchStatusAt]
      simp [List.takeWhile_cons, hdig.1, htw]
    show (match findStatusId (String.toList "https://x.com/user/status/" ++ c :: d') with
      | some ds => String.mk ds
      | none => "") = String.mk (c :: d')
    rw [hfind]

/-- Witness for C7 at concrete inputs. -/
theorem tweet_id_extraction_witness :
    (¬ statusSeg <:+: String.toList "https://example.com/photo") ∧
    extractTweetId "https://example.com/photo" = "" ∧
    extractTweetId (String.mk (String.toList "https://x.com/user/status/" ++ ['9', '8', '7'])) =
      String.mk ['9', '8', '7'] :=
  ⟨by decide, tweet_id_extraction.1 "https://example.com/photo" (by decide),
   tweet_id_extraction.2.1 ['9', '8', '7'] (by decide) (by decide)⟩

/-- C10, confirmed.  For every environment — bridge dispatch failure,
session-init failure, navigation timeout, extraction failure, or success —
the public `parse` either returns `none` or returns exactly the record the
successful scrape produced; no raised error ever escapes to the caller. -/
theorem parse_never_raises :
    ∀ (env : ScrapeEnv) (off : Int) (s : SessionState) (url : String),
      (parse env off s url).2 = none ∨
      ∃ r, (scrapeTweet env off s url).2 = Except.ok r ∧ (parse env off s url).2 = some r := by
  intro env off s url
  obtain ⟨b, a1, a2, a3, np, g, p, f, r⟩ := env
  cases b with
  | false => exact Or.inl rfl
  | true =>
    rcases hsc : scrapeTweet ⟨true, a1, a2, a3, np, g, p, f, r⟩ off s url with ⟨s2, res⟩
    cases res with
    | ok v => exact Or.inr ⟨v, rfl, by simp [parse, hsc]⟩
    | error e => exact Or.inl (by simp [parse, hsc])

/-- A URL that has just gained a `.jpg` extension can never already end in
`:orig`. -/
theorem orig_not_suffix_jpg (u : List Char) :
    origSuffix.isSuffixOf (u ++ jpgExt) = false := by
  rw [Bool.eq_false_iff]
  intro h
  rw [List.isSuffixOf_iff_suffix] at h
  have h2 : jpgExt <:+ u ++ jpgExt := ⟨u, rfl⟩
  have h3 : jpgExt <:+ origSuffix :=
    List.suffix_of_suffix_length_le h2 h (by decide)
  exact absurd h3 (by decide)

/-- A URL that ends (case-insensitively) in a recognized image extension can
never also end in `:orig`. -/
theorem orig_not_suffix_of_ext {u : List Char} (h : hasImageExt u = true) :
    origSuffix.isSuffixOf u = false := by
  rw [Bool.eq_false_iff]
  intro ho
  rw [List.isSuffixOf_iff_suffix] at ho
  have ho' : origSuffix <:+ u.map lowerAscii := by
    have hm := List.IsSuffix.map lowerAscii ho
    rwa [show origSuffix.map lowerAscii = origSuffix from rfl] at hm
  simp [hasImageExt, imageExts, jpgExt] at h
  rcases h with h | h | h | h | h <;>
    exact absurd (List.suffix_of_suffix_length_le h ho' (by decide)) (by decide)

/-- C5, confirmed.  Image-URL canonicalization first strips everything from
the first `?` on, then appends `.jpg` exactly when no recognized image
extension ends the stripped URL, and then always appends `:orig` (the
`endsWith(':orig')` guard can never fire, because at that point the URL ends
in an image extension).  In particular
`https://host/media/ABC.png?x=1` becomes `https://host/media/ABC.png:orig`,
and an extensionless URL gains `.jpg` before the `:orig` suffix. -/
theorem media_url_canonicalization :
    (∀ src : List Char,
      canonicalizeImageUrl src =
        (if hasImageExt (jsSplitQuery src) then jsSplitQuery src
         else jsSplitQuery src ++ jpgExt) ++ origSuffix) ∧
    canonicalizeImageUrlS "https://host/media/ABC.png?x=1" =
      "https://host/media/ABC.png:orig" ∧
    canonicalizeImageUrlS "https://host/media/XYZ?x=1" =
      "https://host/media/XYZ.jpg:orig" := by
  refine ⟨fun src => ?_, by decide, by decide⟩
  by_cases h : hasImageExt (jsSplitQuery src) = true
  · simp [canonicalizeImageUrl, h, orig_not_suffix_of_ext h]
  · rw [Bool.not_eq_true] at h
    simp [canonicalizeImageUrl, h, orig_not_suffix_jpg]

/-! ### Correctness of the `can_parse` matcher against a structural shape -/

/-- `startsWith` agrees with the structural prefix relation. -/
theorem startsWith_iff {p l : List Char} : startsWith p l = true ↔ p <+: l := by
  induction p generalizing l with
  | nil => simp [startsWith]
  | cons a as ih =>
    cases l with
    | nil => simp [startsWith]
    | cons b bs => simp [startsWith, ih, List.cons_prefix_cons]

/-- `dropPre` succeeds exactly on strings that literally start with `pre`. -/
theorem dropPre_eq_some {p l r : List Char} : dropPre p l = some r ↔ l = p ++ r := by
  unfold dropPre
  cases h : startsWith p l with
  | true =>
    rw [startsWith_iff] at h
    obtain ⟨t, rfl⟩ := h
    simp [List.drop_left]
  | false =>
    constructor
    · intro hh
      exact absurd hh (by simp)
    · rintro rfl
      have hp : startsWith p (p ++ r) = true := startsWith_iff.mpr ⟨r, rfl⟩
      rw [h] at hp
      exact absurd hp (by decide)

/-- Inversion for the scheme alternatives. -/
theorem schemeSplit_eq_some {l r : List Char} (h : schemeSplit l = some r) :
    l = httpsPre ++ r ∨ l = httpPre ++ r := by
  unfold schemeSplit at h
  cases h1 : dropPre httpsPre l with
  | some r' =>
    rw [h1] at h
    injection h with h2
    subst h2
    exact Or.inl (dropPre_eq_some.mp h1)
  | none =>
    rw [h1] at h
    exact Or.inr (dropPre_eq_some.mp h)

/-- Inversion for the host alternatives. -/
theorem hostSplit_eq_some {l r : List Char} (h : hostSplit l = some r) :
    l = twitterHost ++ r ∨ l = xHost ++ r := by
  unfold hostSplit at h
  cases h1 : dropPre twitterHost l with
  | some r' =>
    rw [h1] at h
    injection h with h2
    subst h2
    exact Or.inl (dropPre_eq_some.mp h1)
  | none =>
    rw [h1] at h
    exact Or.inr (dropPre_eq_some.mp h)

/-- The optional `www.` either strips a literal `www.` or leaves the string
unchanged. -/
theorem wwwSplit_cases (l : List Char) :
    (∃ t, l = wwwDot ++ t ∧ wwwSplit l = t) ∨ wwwSplit l = l := by
  unfold wwwSplit
  cases h1 : dropPre wwwDot l with
  | some r => exact Or.inl ⟨r, dropPre_eq_some.mp h1, rfl⟩
  | none => exact Or.inr rfl

theorem schemeSplit_http (R : List Char) : schemeSplit (httpPre ++ R) = some R := rfl

theorem schemeSplit_https (R : List Char) : schemeSplit (httpsPre ++ R) = some R := rfl

theorem wwwSplit_www (R : List Char) : wwwSplit (wwwDot ++ R) = R := rfl

theorem wwwSplit_twitter (R : List Char) : wwwSplit (twitterHost ++ R) = twitterHost ++ R := rfl

theorem wwwSplit_x (R : List Char) : wwwSplit (xHost ++ R) = xHost ++ R := rfl

theorem hostSplit_twitter (R : List Char) : hostSplit (twitterHost ++ R) = some R := rfl

theorem hostSplit_x (R : List Char) : hostSplit (xHost ++ R) = some R := rfl

/-- `statusDigit` holds exactly on strings of the form `/status/` + Nd digit. -/
theorem statusDigit_iff {l : List Char} :
    statusDigit l = true ↔ ∃ d rest, isUniDigit d = true ∧ l = statusSeg ++ d :: rest := by
  unfold statusDigit
  cases h : dropPre statusSeg l with
  | none =>
    simp only [Bool.false_eq_true, false_iff, not_exists]
    intro d rest hcontra
    rw [hcontra.2] at h
    exact absurd h (by simp [dropPre_eq_some.mpr rfl])
  | some r =>
    obtain rfl := dropPre_eq_some.mp h
    cases r with
    | nil => simp
    | cons c cs => simp

/-- `.+/status/\d`: holds exactly on strings made of a nonempty newline-free
run, then `/status/`, then a digit. -/
theorem dotPlusStatus_iff {l : List Char} :
    dotPlusStatus l = true ↔
      ∃ mid d rest, mid ≠ ([] : List Char) ∧ '\n' ∉ mid ∧ isUniDigit d = true ∧
        l = mid ++ statusSeg ++ d :: rest := by
  induction l with
  | nil =>
    constructor
    · intro h
      exact absurd h (by decide)
    · rintro ⟨mid, d, rest, hmid, hnl, hd, heq⟩
      exact absurd heq.symm (by simp [hmid])
  | cons c cs ih =>
    constructor
    · intro h
      rw [dotPlusStatus] at h
      by_cases hc : c = '\n'
      · rw [if_pos hc] at h
        exact absurd h (by decide)
      · rw [if_neg hc, Bool.or_eq_true] at h
        rcases h with h | h
        · obtain ⟨d, rest, hd, rfl⟩ := statusDigit_iff.mp h
          exact ⟨[c], d, rest, by simp, by simp [Ne.symm hc], hd, rfl⟩
        · obtain ⟨mid, d, rest, hmid, hnl, hd, rfl⟩ := ih.mp h
          refine ⟨c :: mid, d, rest, by simp, ?_, hd, rfl⟩
          intro hmem
          rcases List.mem_cons.mp hmem with h1 | h1
          · exact hc h1.symm
          · exact hnl h1
    · rintro ⟨mid, d, rest, hmid, hnl, hd, heq⟩
      cases mid with
      | nil => exact absurd rfl hmid
      | cons m ms =>
        rw [List.cons_append, List.cons_append] at heq
        injection heq with h1 h2
        subst h1
        rw [dotPlusStatus]
        have hc : ¬ c = '\n' := by
          intro hcc
          exact hnl (hcc ▸ List.mem_cons_self c ms)
        rw [if_neg hc, Bool.or_eq_true]
        cases ms with
        | nil =>
          left
          exact statusDigit_iff.mpr ⟨d, rest, hd, by simpa using h2⟩
        | cons m2 ms2 =>
          right
          exact ih.mpr ⟨m2 :: ms2, d, rest, by simp,
            fun hm => hnl (List.mem_cons_of_mem _ hm), hd, h2⟩

/-- The shape `can_parse` actually accepts, stated structurally: scheme,
optional `www.`, one of the two hosts, then a path consisting of a slash, a
nonempty newline-free run, `/status/` and a decimal digit in Python's `\d`
sense — any Unicode Nd digit — with anything after. -/
def amendedShape (url : String) : Prop :=
  ∃ (sch www host mid rest : List Char) (d : Char),
    (sch = httpsPre ∨ sch = httpPre) ∧
    (www = [] ∨ www = wwwDot) ∧
    (host = twitterHost ∨ host = xHost) ∧
    mid ≠ [] ∧ '\n' ∉ mid ∧ isUniDigit d = true ∧
    url.toList = sch ++ (www ++ (host ++ '/' :: (mid ++ statusSeg ++ d :: rest)))

/-- C9, counterexample.  The URL `https://x.com/status/123` matches the
claim's own description of the post-URL shape (an `x.com` URL whose path
contains `/status/` followed by digits), yet `can_parse` rejects it: the
regex demands a nonempty path segment between the host and `/status/`. -/
theorem capability_check_counterexample :
    claimShape "https://x.com/status/123" = true ∧
    canParse "https://x.com/status/123" = false := by decide

/-- C9, amended.  The capability check returns true exactly for URLs built
of `http://` or `https://`, an optional `www.`, the host `twitter.com` or
`x.com`, then a `/`, at least one further character (none of them a
newline), `/status/` and at least one decimal digit (any Unicode Nd digit,
as Python's `\d` matches) — and false for every other URL; in particular a
post URL with no path segment before `/status/` is rejected. -/
theorem can_parse_characterization (url : String) :
    canParse url = true ↔ amendedShape url := by
  constructor
  · intro h
    unfold canParse at h
    cases hs : schemeSplit url.toList with
    | none =>
      rw [hs] at h
      exact absurd h (by simp)
    | some r1 =>
      rw [hs] at h
      replace h : (match hostSplit (wwwSplit r1) with
        | none => false
        | some [] => false
        | some (c :: path) => c == '/' && dotPlusStatus path) = true := h
      cases hh : hostSplit (wwwSplit r1) with
      | none =>
        rw [hh] at h
        exact absurd h (by simp)
      | some r2 =>
        rw [hh] at h
        cases r2 with
        | nil => exact absurd h (by simp)
        | cons c path =>
          simp only [Bool.and_eq_true, beq_iff_eq] at h
          obtain ⟨rfl, hdp⟩ := h
          obtain ⟨mid, d, rest, hmid, hnl, hd, rfl⟩ := dotPlusStatus_iff.mp hdp
          have hsch := schemeSplit_eq_some hs
          rcases wwwSplit_cases r1 with ⟨t, rfl, hw⟩ | hw
          · rw [hw] at hh
            rcases hostSplit_eq_some hh with rfl | rfl <;>
              rcases hsch with heq2 | heq2
            · exact ⟨httpsPre, wwwDot, twitterHost, mid, rest, d, Or.inl rfl, Or.inr rfl,
                Or.inl rfl, hmid, hnl, hd, by rw [heq2]⟩
            · exact ⟨httpPre, wwwDot, twitterHost, mid, rest, d, Or.inr rfl, Or.inr rfl,
                Or.inl rfl, hmid, hnl, hd, by rw [heq2]⟩
            · exact ⟨httpsPre, wwwDot, xHost, mid, rest, d, Or.inl rfl, Or.inr rfl,
                Or.inr rfl, hmid, hnl, hd, by rw [heq2]⟩
            · exact ⟨httpPre, wwwDot, xHost, mid, rest, d, Or.inr rfl, Or.inr rfl,
                Or.inr rfl, hmid, hnl, hd, by rw [heq2]⟩
          · rw [hw] at hh
            rcases hostSplit_eq_some hh with rfl | rfl <;>
              rcases hsch with heq2 | heq2
            · exact ⟨httpsPre, [], twitterHost, mid, rest, d, Or.inl rfl, Or.inl rfl,
                Or.inl rfl, hmid, hnl, hd, by rw [heq2, List.nil_append]⟩
            · exact ⟨httpPre, [], twitterHost, mid, rest, d, Or.inr rfl, Or.inl rfl,
                Or.inl rfl, hmid, hnl, hd, by rw [heq2, List.nil_append]⟩
            · exact ⟨httpsPre, [], xHost, mid, rest, d, Or.inl rfl, Or.inl rfl,
                Or.inr rfl, hmid, hnl, hd, by rw [heq2, List.nil_append]⟩
            · exact ⟨httpPre, [], xHost, mid, rest, d, Or.inr rfl, Or.inl rfl,
                Or.inr rfl, hmid, hnl, hd, by rw [heq2, List.nil_append]⟩
  · rintro ⟨sch, www, host, mid, rest, d, hsch, hwww, hhost, hmid, hnl, hd, heq⟩
    have hdp : dotPlusStatus (mid ++ (statusSeg ++ d :: rest)) = true := by
      have hdp0 := dotPlusStatus_iff.mpr ⟨mid, d, rest, hmid, hnl, hd, rfl⟩
      rwa [List.append_assoc] at hdp0
    rcases hsch with rfl | rfl <;> rcases hwww with rfl | rfl <;> rcases hhost with rfl | rfl <;>
      (unfold canParse
       rw [heq]
       simp [schemeSplit_http, schemeSplit_https, wwwSplit_www,
         wwwSplit_twitter, wwwSplit_x, hostSplit_twitter, hostSplit_x, hdp])

/-- Witness for C9's amended theorem: a well-formed post URL with a username
segment is accepted, also when the id is a non-ASCII Unicode decimal digit
(`٣`, U+0663), exactly as Python's `\d` accepts it. -/
theorem can_parse_characterization_witness :
    canParse "https://x.com/alice/status/123" = true ∧
    canParse "https://x.com/alice/status/٣" = true :=
  ⟨(can_parse_characterization "https://x.com/alice/status/123").mpr
    ⟨httpsPre, [], xHost, ['a', 'l', 'i', 'c', 'e'], ['2', '3'], '1',
      Or.inl rfl, Or.inl rfl, Or.inr rfl, by decide, by decide, by decide, by decide⟩,
   (can_parse_characterization "https://x.com/alice/status/٣").mpr
    ⟨httpsPre, [], xHost, ['a', 'l', 'i', 'c', 'e'], [], '٣',
      Or.inl rfl, Or.inl rfl, Or.inr rfl, by decide, by decide, by decide, by decide⟩⟩

end TwitterParserModel
